import Mathlib

/-!
# Verification of the Mflux-ComfyUI custom node definitions

A shallow embedding of `src/Mflux_Pro.py`.  The three pipeline holder
classes become Lean structures; the node methods (`lora_stacker`,
`load_and_select`, `IS_CHANGED`, `VALIDATE_INPUTS`, `clear_cache`) become
Lean functions.  Python floats are modelled as rationals (the code only
carries them around, divides by a constant, and rounds to two decimals);
dynamically typed parameters that the code inspects with `isinstance`
are modelled by the `PyVal` type; the filesystem and the external
image/preprocessing libraries are oracles passed as function parameters.
-/

namespace MfluxPro

/-- A dynamically typed Python value, restricted to the kinds the
validation code distinguishes with `isinstance`. -/
inductive PyVal where
  | pnone : PyVal
  | pbool (b : Bool) : PyVal
  | pint (n : ℤ) : PyVal
  | pfloat (q : ℚ) : PyVal
  | pstr (s : String) : PyVal
deriving DecidableEq

/-- Python `isinstance(x, bool)`. -/
def isinstance_bool : PyVal → Bool
  | .pbool _ => true
  | _ => false

/-- Python `isinstance(x, (int, float))`.  In Python `bool` is a subclass
of `int`, so booleans satisfy this test. -/
def isinstance_int_float : PyVal → Bool
  | .pbool _ => true
  | .pint _ => true
  | .pfloat _ => true
  | _ => false

/-- Result of a `VALIDATE_INPUTS` hook: Python `True`, or an error
message string. -/
inductive ValidationResult where
  | ok : ValidationResult
  | err (msg : String) : ValidationResult
deriving DecidableEq

/-- `os.path.join(a, b, c)` for the ordinary case of relative second and
third components, which is the only way the code calls it. -/
def os_path_join3 (a b c : String) : String :=
  a ++ "/" ++ b ++ "/" ++ c

/-- Python `str(x)` on a value that is either `None` or a string. -/
def pyStrOfOptString : Option String → String
  | none => "None"
  | some s => s

/-- `class MfluxImagePipeline`: holder for an image path and a blend
strength.  Fields are optional because `clear_cache` sets them to
`None`. -/
structure MfluxImagePipeline where
  image_path : Option String
  strength : Option ℚ
deriving DecidableEq

/-- `MfluxImagePipeline.clear_cache`: sets both fields to `None`. -/
def MfluxImagePipeline.clear_cache (_p : MfluxImagePipeline) :
    MfluxImagePipeline :=
  { image_path := none, strength := none }

/-- `class MfluxLorasPipeline`: parallel lists of LoRA paths and
scales. -/
structure MfluxLorasPipeline where
  lora_paths : List String
  lora_scales : List ℚ
deriving DecidableEq

/-- `MfluxLorasPipeline.clear_cache`: sets both lists to `[]`. -/
def MfluxLorasPipeline.clear_cache (_p : MfluxLorasPipeline) :
    MfluxLorasPipeline :=
  { lora_paths := [], lora_scales := [] }

/-- `class MfluxControlNetPipeline`: a model selection and a save flag.
`model_selection` is optional because `clear_cache` sets it to `None`. -/
structure MfluxControlNetPipeline where
  model_selection : Option String
  save_canny : Bool
deriving DecidableEq

/-- `MfluxControlNetPipeline.clear_cache`: sets `model_selection` to
`None` and `save_canny` to `False`. -/
def MfluxControlNetPipeline.clear_cache (_p : MfluxControlNetPipeline) :
    MfluxControlNetPipeline :=
  { model_selection := none, save_canny := false }

/-- `MfluxLoadImage.IS_CHANGED`: `(hash(image), round(float(strength), 2))`.
Python's string hash is modelled as an oracle `pyHash`; rounding to two
decimals is `round2` below. -/
def round2 (q : ℚ) : ℚ :=
  (round (q * 100) : ℤ) / 100

/-- `MfluxLoadImage.IS_CHANGED`. -/
def MfluxLoadImage.IS_CHANGED (pyHash : String → ℤ) (image : String)
    (strength : ℚ) : ℤ × ℚ :=
  (pyHash image, round2 strength)

/-- `MfluxLoadImage.VALIDATE_INPUTS`: rejects a missing file, then a
non-numeric strength, else returns `True`.  The filesystem test
`folder_paths.exists_annotated_filepath` is an oracle parameter. -/
def MfluxLoadImage.VALIDATE_INPUTS
    ( exists_annotated_filepath : String → Bool) (image : String)
    (strength : PyVal) : ValidationResult :=
  if exists_annotated_filepath image = false then
    .err ("Invalid image file: " ++ image)
  else if isinstance_int_float strength = false then
    .err "Strength must be a number"
  else
    .ok

/-- `MfluxLorasLoader.lora_stacker`: builds the local `(path, scale)`
list from the three slots, skipping `"None"` selections; appends the
upstream stack's zipped entries when the upstream object is present and
both its lists are non-empty; then splits back into parallel lists.
`models_dir` stands for `folder_paths.models_dir`. -/
def MfluxLorasLoader.lora_stacker (models_dir : String)
    (Lora1 : String) (scale1 : ℚ) (Lora2 : String) (scale2 : ℚ)
    (Lora3 : String) (scale3 : ℚ)
    (Loras : Option MfluxLorasPipeline) : MfluxLorasPipeline :=
  let slots : List (String × ℚ) :=
    [(Lora1, scale1), (Lora2, scale2), (Lora3, scale3)]
  let lora_models : List (String × ℚ) :=
    (slots.filter (fun sl => sl.1 != "None")).map
      (fun sl => (os_path_join3 models_dir "loras" sl.1, sl.2))
  let lora_models : List (String × ℚ) :=
    match Loras with
    | some up =>
        if up.lora_paths ≠ [] ∧ up.lora_scales ≠ [] then
          lora_models ++ up.lora_paths.zip up.lora_scales
        else
          lora_models
    | none => lora_models
  { lora_paths := lora_models.map Prod.fst
    lora_scales := lora_models.map Prod.snd }

/-- Modelled from the spec: the local entries of the merged LoRA list,
"one (resolved_path, scale) entry for each slot whose selection is not
the string None, in slot order 1, 2, 3". -/
def spec_localEntries (models_dir : String)
    (Lora1 : String) (scale1 : ℚ) (Lora2 : String) (scale2 : ℚ)
    (Lora3 : String) (scale3 : ℚ) : List (String × ℚ) :=
  ([(Lora1, scale1), (Lora2, scale2), (Lora3, scale3)].filter
      (fun sl => sl.1 != "None")).map
    (fun sl => (os_path_join3 models_dir "loras" sl.1, sl.2))

/-- Modelled from the spec: "all entries of the upstream stack in their
original order" — the index-aligned pairs of an optional upstream
stack, empty when no stack is supplied. -/
def spec_upstreamEntries : Option MfluxLorasPipeline → List (String × ℚ)
  | none => []
  | some up => up.lora_paths.zip up.lora_scales

/-- The LoraStack data-model invariant for an optional upstream stack:
path and scale lists have equal length. -/
def upstreamOk : Option MfluxLorasPipeline → Bool
  | none => true
  | some up => up.lora_paths.length == up.lora_scales.length

/-- A numpy array as produced by `np.array(canny_image)`: a shape and a
flat list of element values.  Elementwise division by `255.0` acts on the
data only. -/
structure NpArray where
  shape : List ℕ
  data : List ℚ
deriving DecidableEq

/-- Elementwise `a / c` on a numpy array. -/
def NpArray.divScalar (a : NpArray) (c : ℚ) : NpArray :=
  { shape := a.shape, data := a.data.map (fun x => x / c) }

/-- A torch tensor: same representation as an array. -/
structure Tensor where
  shape : List ℕ
  data : List ℚ
deriving DecidableEq

/-- `torch.from_numpy`. -/
def torch_from_numpy (a : NpArray) : Tensor :=
  { shape := a.shape, data := a.data }

/-- `tensor.dim()`: the number of dimensions. -/
def Tensor.dim (t : Tensor) : ℕ :=
  t.shape.length

/-- `tensor.unsqueeze(0)`: prepend a batch dimension of size 1. -/
def Tensor.unsqueeze0 (t : Tensor) : Tensor :=
  { shape := 1 :: t.shape, data := t.data }

/-- The fixed supported-model list of `MfluxControlNetLoader`, as written
in both `INPUT_TYPES` and `VALIDATE_INPUTS`. -/
def available_models : List String :=
  ["InstantX/FLUX.1-dev-Controlnet-Canny"]

/-- `MfluxControlNetLoader.load_and_select`: reads `image_path` and
`strength` off the supplied `MfluxImagePipeline`, opens the file at
`image_path`, runs canny preprocessing, converts to an array, divides
by 255, converts to a tensor, and prepends a batch dimension when the
tensor is 3-dimensional.  The composite
`np.array(ControlnetUtil.preprocess_canny(Image.open(path)))` is the
oracle `preprocess_canny : String → NpArray`.  `Image.open(None)`
raises, so the cases where `image` is absent or its `image_path` is
`None` yield `none`. -/
def MfluxControlNetLoader.load_and_select
    (preprocess_canny : String → NpArray)
    (model_selection : String) (save_canny : Bool)
    (image : Option MfluxImagePipeline) :
    Option (MfluxControlNetPipeline × Tensor) :=
  match image with
  | none => none
  | some img =>
    match img.image_path with
    | none => none
    | some path =>
      let canny_image_np : NpArray :=
        (preprocess_canny path).divScalar 255
      let canny_tensor : Tensor := torch_from_numpy canny_image_np
      let canny_tensor : Tensor :=
        if canny_tensor.dim = 3 then canny_tensor.unsqueeze0
        else canny_tensor
      some ({ model_selection := some model_selection,
              save_canny := save_canny }, canny_tensor)

/-- `MfluxControlNetLoader.VALIDATE_INPUTS`: rejects a supplied image
whose path does not exist, then an unsupported model selection, then a
non-boolean save flag, else returns `True`.  The filesystem test is the
oracle parameter; it receives the image's `image_path` field, which can
be `None`. -/
def MfluxControlNetLoader.VALIDATE_INPUTS
    ( exists_annotated_filepath : Option String → Bool)
    (image : Option MfluxImagePipeline) (model_selection : String)
    (save_canny : PyVal) : ValidationResult :=
  let rest : ValidationResult :=
    if model_selection ∈ available_models then
      if isinstance_bool save_canny = false then
        .err "save_canny must be a boolean value"
      else
        .ok
    else
      .err ("Invalid model selection: " ++ model_selection)
  match image with
  | some img =>
      if exists_annotated_filepath img.image_path = false then
        .err ("Invalid image file: " ++ pyStrOfOptString img.image_path)
      else
        rest
  | none => rest

/-! ## Theorems -/

/-- Claim C1: for every three (selection, scale) input pairs and every
optional upstream LoraStack satisfying the length invariant,
`lora_stacker` returns the stack obtained by listing one
(resolved_path, scale) entry per non-`"None"` slot in slot order,
followed by all entries of the upstream stack in order, split back into
parallel path and scale sequences. -/
theorem lora_stacker_local_then_upstream (models_dir : String)
    (Lora1 : String) (scale1 : ℚ) (Lora2 : String) (scale2 : ℚ)
    (Lora3 : String) (scale3 : ℚ) (Loras : Option MfluxLorasPipeline)
    (hinv : upstreamOk Loras = true) :
    MfluxLorasLoader.lora_stacker models_dir Lora1 scale1 Lora2 scale2
        Lora3 scale3 Loras
      = { lora_paths :=
            ((spec_localEntries models_dir Lora1 scale1 Lora2 scale2
                Lora3 scale3) ++ spec_upstreamEntries Loras).map Prod.fst
          lora_scales :=
            ((spec_localEntries models_dir Lora1 scale1 Lora2 scale2
                Lora3 scale3) ++ spec_upstreamEntries Loras).map Prod.snd } := by
  cases Loras with
  | none =>
      simp [MfluxLorasLoader.lora_stacker, spec_localEntries,
        spec_upstreamEntries]
  | some up =>
      have hlen : up.lora_paths.length = up.lora_scales.length := by
        simpa [upstreamOk] using hinv
      by_cases hp : up.lora_paths = []
      · have hs : up.lora_scales = [] := by
          rw [← List.length_eq_zero, ← hlen, hp]
          rfl
        simp [MfluxLorasLoader.lora_stacker, spec_localEntries,
          spec_upstreamEntries, hp, hs]
      · have hs : up.lora_scales ≠ [] := by
          intro hs0
          exact hp (by rw [← List.length_eq_zero, hlen, hs0]; rfl)
        simp [MfluxLorasLoader.lora_stacker, spec_localEntries,
          spec_upstreamEntries, hp, hs]

/-- Witness for C1 at a concrete input with one active slot and a
one-entry upstream stack. -/
theorem lora_stacker_local_then_upstream_witness :
    upstreamOk (some ⟨["m/loras/u"], [(3 : ℚ) / 4]⟩) = true
    ∧ MfluxLorasLoader.lora_stacker "m" "a.safetensors" 1 "None" (1 / 2)
        "None" (1 / 4) (some ⟨["m/loras/u"], [(3 : ℚ) / 4]⟩)
      = { lora_paths :=
            ((spec_localEntries "m" "a.safetensors" 1 "None" (1 / 2)
                "None" (1 / 4))
              ++ spec_upstreamEntries
                  (some ⟨["m/loras/u"], [(3 : ℚ) / 4]⟩)).map Prod.fst
          lora_scales :=
            ((spec_localEntries "m" "a.safetensors" 1 "None" (1 / 2)
                "None" (1 / 4))
              ++ spec_upstreamEntries
                  (some ⟨["m/loras/u"], [(3 : ℚ) / 4]⟩)).map Prod.snd } :=
  ⟨by decide,
    lora_stacker_local_then_upstream "m" "a.safetensors" 1 "None" (1 / 2)
      "None" (1 / 4) (some ⟨["m/loras/u"], [(3 : ℚ) / 4]⟩) (by decide)⟩

/-- Claim C2: every stack produced by `lora_stacker` has path and scale
sequences of equal length, for every combination of slot inputs and any
optional upstream stack (even one violating the invariant). -/
theorem lora_stacker_parallel_lengths (models_dir : String)
    (Lora1 : String) (scale1 : ℚ) (Lora2 : String) (scale2 : ℚ)
    (Lora3 : String) (scale3 : ℚ) (Loras : Option MfluxLorasPipeline) :
    (MfluxLorasLoader.lora_stacker models_dir Lora1 scale1 Lora2 scale2
        Lora3 scale3 Loras).lora_paths.length
      = (MfluxLorasLoader.lora_stacker models_dir Lora1 scale1 Lora2
        scale2 Lora3 scale3 Loras).lora_scales.length := by
  cases Loras with
  | none => simp [MfluxLorasLoader.lora_stacker]
  | some up =>
      by_cases hp : up.lora_paths = [] <;>
        by_cases hs : up.lora_scales = [] <;>
          simp [MfluxLorasLoader.lora_stacker, hp, hs]

/-- Claim C3: whenever the combined merged list is empty — in particular
when all three selections are `"None"` and the upstream contributes no
entries — `lora_stacker` returns a stack of two empty sequences. -/
theorem lora_stacker_empty_on_empty_merge (models_dir : String)
    (s1 s2 s3 : ℚ) (L1 L2 L3 : String)
    (Loras : Option MfluxLorasPipeline)
    (h1 : L1 = "None") (h2 : L2 = "None") (h3 : L3 = "None")
    (hup : spec_upstreamEntries Loras = []) :
    MfluxLorasLoader.lora_stacker models_dir L1 s1 L2 s2 L3 s3 Loras
      = { lora_paths := [], lora_scales := [] } := by
  subst h1; subst h2; subst h3
  cases Loras with
  | none => rfl
  | some up =>
      have hzip : up.lora_paths.zip up.lora_scales = [] := hup
      have hps : up.lora_paths = [] ∨ up.lora_scales = [] := by
        cases hp : up.lora_paths with
        | nil => exact Or.inl rfl
        | cons a as =>
            cases hs : up.lora_scales with
            | nil => exact Or.inr rfl
            | cons b bs =>
                rw [hp, hs] at hzip
                exact absurd hzip (by simp [List.zip])
      rcases hps with hp | hs
      · simp [MfluxLorasLoader.lora_stacker, hp]
      · simp [MfluxLorasLoader.lora_stacker, hs]

/-- Witness for C3 at the all-`"None"`, no-upstream input. -/
theorem lora_stacker_empty_on_empty_merge_witness :
    ("None" : String) = "None"
    ∧ spec_upstreamEntries none = []
    ∧ MfluxLorasLoader.lora_stacker "m" "None" 1 "None" 1 "None" 1 none
      = { lora_paths := [], lora_scales := [] } :=
  ⟨rfl, rfl,
    lora_stacker_empty_on_empty_merge "m" 1 1 1 "None" "None" "None" none
      rfl rfl rfl rfl⟩

/-- Claim C8: `clear_cache` sets every field of each holder object to
its cleared value — `None` for the image path, strength and model
selection, `[]` for the LoRA lists, `False` for the save flag — however
the holder was previously populated. -/
theorem clear_cache_clears_all_fields (ip : MfluxImagePipeline)
    (lp : MfluxLorasPipeline) (cp : MfluxControlNetPipeline) :
    ip.clear_cache = { image_path := none, strength := none }
    ∧ lp.clear_cache = { lora_paths := [], lora_scales := [] }
    ∧ cp.clear_cache = { model_selection := none, save_canny := false } :=
  ⟨rfl, rfl, rfl⟩

/-- Counterexample to claim C5: changing the strength does not always
change the change-detection key.  With the same identifier, strengths
0.401 and 0.402 differ, yet both round to 0.40 and `IS_CHANGED` returns
the same key. -/
theorem is_changed_key_misses_small_strength_change :
    (401 : ℚ) / 1000 ≠ (402 : ℚ) / 1000
    ∧ MfluxLoadImage.IS_CHANGED (fun s => (s.length : ℤ)) "img.png"
        (401 / 1000)
      = MfluxLoadImage.IS_CHANGED (fun s => (s.length : ℤ)) "img.png"
        (402 / 1000) := by
  constructor
  · norm_num
  · simp only [MfluxLoadImage.IS_CHANGED, round2, Prod.mk.injEq,
      true_and]
    norm_num [round_eq]

/-- Claim C5 (amended): the change-detection key equals
(hash of identifier, strength rounded to 2 decimals), and two
invocations produce the same key exactly when the identifier's hash and
the rounded strengths both coincide — so a strength change below the
rounding granularity leaves the key unchanged. -/
theorem is_changed_key_eq_iff (pyHash : String → ℤ) (i1 i2 : String)
    (s1 s2 : ℚ) :
    MfluxLoadImage.IS_CHANGED pyHash i1 s1
        = MfluxLoadImage.IS_CHANGED pyHash i2 s2
      ↔ (pyHash i1 = pyHash i2 ∧ round2 s1 = round2 s2) := by
  simp [MfluxLoadImage.IS_CHANGED, Prod.ext_iff]

/-- Claim C6: the ControlNet validation rejects exactly when the model
selection is outside the supported set, or the save flag is not a
boolean, or an image holder is supplied whose path fails the
filesystem-existence oracle. -/
theorem controlnet_validate_rejects_iff
    ( exists_annotated_filepath : Option String → Bool)
    (image : Option MfluxImagePipeline) (model_selection : String)
    (save_canny : PyVal) :
    MfluxControlNetLoader.VALIDATE_INPUTS exists_annotated_filepath image
        model_selection save_canny ≠ .ok
      ↔ (model_selection ∉ available_models
          ∨ isinstance_bool save_canny = false
          ∨ ∃ img, image = some img
              ∧ exists_annotated_filepath img.image_path = false) := by
  cases image with
  | none =>
      unfold MfluxControlNetLoader.VALIDATE_INPUTS
      by_cases hm : model_selection ∈ available_models <;>
        by_cases hb : isinstance_bool save_canny = false <;>
          simp [hm, hb]
  | some img =>
      unfold MfluxControlNetLoader.VALIDATE_INPUTS
      by_cases he : exists_annotated_filepath img.image_path = false <;>
        by_cases hm : model_selection ∈ available_models <;>
          by_cases hb : isinstance_bool save_canny = false <;>
            simp [hm, hb, he]

/-- Claim C7: the image-loader validation rejects exactly when the
identifier fails the filesystem-existence oracle or the strength is not
numeric under Python's `isinstance(strength, (int, float))`. -/
theorem loadimage_validate_rejects_iff
    ( exists_annotated_filepath : String → Bool) (image : String)
    (strength : PyVal) :
    MfluxLoadImage.VALIDATE_INPUTS exists_annotated_filepath image
        strength ≠ .ok
      ↔ (exists_annotated_filepath image = false
          ∨ isinstance_int_float strength = false) := by
  unfold MfluxLoadImage.VALIDATE_INPUTS
  by_cases he : exists_annotated_filepath image = false <;>
    by_cases hn : isinstance_int_float strength = false <;>
      simp [he, hn]

/-- Claim C10: for an existing file, a boolean strength passes the
image-loader validation, because Python classifies `bool` as an `int`
in the `isinstance` test. -/
theorem loadimage_validate_accepts_bool_strength
    ( exists_annotated_filepath : String → Bool) (image : String)
    (b : Bool)
    (hex : exists_annotated_filepath image = true) :
    MfluxLoadImage.VALIDATE_INPUTS exists_annotated_filepath image
        (.pbool b) = .ok := by
  unfold MfluxLoadImage.VALIDATE_INPUTS
  simp [hex, isinstance_int_float]

/-- Witness for C10 at a concrete oracle, file name and boolean. -/
theorem loadimage_validate_accepts_bool_strength_witness :
    (fun _ : String => true) "img.png" = true
    ∧ MfluxLoadImage.VALIDATE_INPUTS (fun _ : String => true) "img.png"
        (.pbool true) = .ok :=
  ⟨rfl, loadimage_validate_accepts_bool_strength (fun _ => true)
    "img.png" true rfl⟩

/-- Claim C4: when the preprocessed edge map of the supplied image is a
3-dimensional array, `load_and_select` returns a 4-dimensional tensor —
a batch dimension of size 1 prepended to the array's shape — whose
elements are the array's pixel values divided by 255. -/
theorem load_and_select_four_dims (preprocess_canny : String → NpArray)
    (model_selection : String) (save_canny : Bool)
    (image : MfluxImagePipeline) (path : String)
    (hpath : image.image_path = some path)
    (h3 : (preprocess_canny path).shape.length = 3) :
    ∃ t : Tensor,
      MfluxControlNetLoader.load_and_select preprocess_canny
          model_selection save_canny (some image)
        = some ({ model_selection := some model_selection,
                  save_canny := save_canny }, t)
      ∧ t.dim = 4
      ∧ t.shape = 1 :: (preprocess_canny path).shape
      ∧ t.data = (preprocess_canny path).data.map (fun x => x / 255) := by
  refine ⟨{ shape := 1 :: (preprocess_canny path).shape,
            data := (preprocess_canny path).data.map (fun x => x / 255) },
    ?_, ?_, rfl, rfl⟩
  · simp only [MfluxControlNetLoader.load_and_select]
    rw [hpath]
    simp [NpArray.divScalar, torch_from_numpy, Tensor.dim,
      Tensor.unsqueeze0, h3]
  · simp [Tensor.dim, h3]

/-- Witness for C4 on a concrete 2×2×1 edge map. -/
theorem load_and_select_four_dims_witness :
    (⟨some "p.png", some ((2 : ℚ) / 5)⟩ :
        MfluxImagePipeline).image_path = some "p.png"
    ∧ ((fun _ : String => (⟨[2, 2, 1], [0, 255, 51, 102]⟩ : NpArray))
        "p.png").shape.length = 3
    ∧ ∃ t : Tensor,
        MfluxControlNetLoader.load_and_select
            (fun _ : String => (⟨[2, 2, 1], [0, 255, 51, 102]⟩ : NpArray))
            "InstantX/FLUX.1-dev-Controlnet-Canny" false
            (some ⟨some "p.png", some ((2 : ℚ) / 5)⟩)
          = some ({ model_selection :=
                      some "InstantX/FLUX.1-dev-Controlnet-Canny",
                    save_canny := false }, t)
        ∧ t.dim = 4
        ∧ t.shape = 1 :: ((fun _ : String =>
            (⟨[2, 2, 1], [0, 255, 51, 102]⟩ : NpArray)) "p.png").shape
        ∧ t.data = ((fun _ : String =>
            (⟨[2, 2, 1], [0, 255, 51, 102]⟩ : NpArray)) "p.png").data.map
              (fun x => x / 255) :=
  ⟨rfl, rfl,
    load_and_select_four_dims
      (fun _ : String => (⟨[2, 2, 1], [0, 255, 51, 102]⟩ : NpArray))
      "InstantX/FLUX.1-dev-Controlnet-Canny" false
      ⟨some "p.png", some ((2 : ℚ) / 5)⟩ "p.png" rfl rfl⟩

/-- Claim C9: `load_and_select` never reads the strength field — two
image holders with the same path but arbitrary (possibly different)
strengths yield identical results for identical model selection and
save flag. -/
theorem load_and_select_ignores_strength
    (preprocess_canny : String → NpArray) (model_selection : String)
    (save_canny : Bool) (img1 img2 : MfluxImagePipeline)
    (hpath : img1.image_path = img2.image_path) :
    MfluxControlNetLoader.load_and_select preprocess_canny
        model_selection save_canny (some img1)
      = MfluxControlNetLoader.load_and_select preprocess_canny
        model_selection save_canny (some img2) := by
  simp only [MfluxControlNetLoader.load_and_select]
  rw [hpath]

/-- Witness for C9: same path, strengths 0 and 1. -/
theorem load_and_select_ignores_strength_witness :
    (⟨some "p.png", some 0⟩ : MfluxImagePipeline).image_path
        = (⟨some "p.png", some 1⟩ : MfluxImagePipeline).image_path
    ∧ MfluxControlNetLoader.load_and_select
        (fun _ : String => (⟨[3], [0, 1, 2]⟩ : NpArray))
        "InstantX/FLUX.1-dev-Controlnet-Canny" false
        (some ⟨some "p.png", some 0⟩)
      = MfluxControlNetLoader.load_and_select
        (fun _ : String => (⟨[3], [0, 1, 2]⟩ : NpArray))
        "InstantX/FLUX.1-dev-Controlnet-Canny" false
        (some ⟨some "p.png", some 1⟩) :=
  ⟨rfl,
    load_and_select_ignores_strength
      (fun _ : String => (⟨[3], [0, 1, 2]⟩ : NpArray))
      "InstantX/FLUX.1-dev-Controlnet-Canny" false
      ⟨some "p.png", some 0⟩ ⟨some "p.png", some 1⟩ rfl⟩

end MfluxPro
